import Mathlib

/-!
Verification of `ceda_datapoint/core/cloud.py` (DataPointCluster,
DataPointCloudProduct and the kerchunk localisation helpers) against its
specification.  The Python code is shallowly embedded: dictionaries become
association lists, network and filesystem effects become explicit oracle
functions (`head`, `isFile`, `get`, `readFile`, `parseJson`), and raised
exceptions become `Except PyErr` results.
-/

set_option autoImplicit false

universe u v

/-! ## Python string primitives

`x in s` (substring test) and `s.replace(old, new)` for Python strings,
implemented on `List Char` so that their behaviour is fully under our
control. -/

/-- Boolean prefix test on character lists (`p` is a prefix of `s`). -/
def isPre : List Char → List Char → Bool
  | [], _ => true
  | _ :: _, [] => false
  | a :: p, b :: s => a == b && isPre p s

/-- Python substring containment: `containsSub p s` is `p in s`. -/
def containsSub (p : List Char) : List Char → Bool
  | [] => isPre p []
  | c :: cs => isPre p (c :: cs) || containsSub p cs

/-- Scanner for Python `str.replace`: at skip-count `0`, a match of `p`
emits `r` and switches to skipping the remaining `p.length - 1` matched
characters; otherwise the character is copied.  (All patterns used by the
code under verification are non-empty.) -/
def replaceAux (p r : List Char) : Nat → List Char → List Char
  | _, [] => []
  | skip + 1, _ :: cs => replaceAux p r skip cs
  | 0, c :: cs =>
    if isPre p (c :: cs) && !p.isEmpty then
      r ++ replaceAux p r (p.length - 1) cs
    else
      c :: replaceAux p r 0 cs

/-- Python `s.replace(p, r)`: replace all non-overlapping occurrences of `p`
in `s` by `r`, scanning left to right. -/
def replaceCore (p r : List Char) (s : List Char) : List Char :=
  replaceAux p r 0 s

/-- Python `pat in s` on strings. -/
def strContains (s pat : String) : Bool :=
  containsSub pat.data s.data

/-- Python `s.replace(pat, repl)` on strings. -/
def strReplace (s pat repl : String) : String :=
  ⟨replaceCore pat.data repl.data s.data⟩

theorem isPre_trans {p q s : List Char} (hpq : isPre p q = true)
    (hqs : isPre q s = true) : isPre p s = true := by
  induction p generalizing q s with
  | nil => rfl
  | cons a p ih =>
    cases q with
    | nil => simp [isPre] at hpq
    | cons b q =>
      cases s with
      | nil => simp [isPre] at hqs
      | cons c s =>
        simp only [isPre, Bool.and_eq_true, beq_iff_eq] at hpq hqs ⊢
        exact ⟨hpq.1.trans hqs.1, ih hpq.2 hqs.2⟩

theorem containsSub_mono {p q : List Char} (hpq : isPre p q = true) :
    ∀ {s : List Char}, containsSub q s = true → containsSub p s = true := by
  intro s
  induction s with
  | nil =>
    intro h
    simp only [containsSub] at h ⊢
    exact isPre_trans hpq h
  | cons c cs ih =>
    intro h
    simp only [containsSub, Bool.or_eq_true] at h ⊢
    rcases h with h | h
    · exact Or.inl (isPre_trans hpq h)
    · exact Or.inr (ih h)

theorem replaceCore_of_not_contains {p r : List Char} :
    ∀ {s : List Char}, containsSub p s = false → replaceCore p r s = s := by
  intro s
  induction s with
  | nil => intro _; rfl
  | cons c cs ih =>
    intro h
    simp only [containsSub, Bool.or_eq_false_iff] at h
    unfold replaceCore at ih ⊢
    rw [replaceAux, if_neg, ih h.2]
    simp [h.1]

theorem strReplace_of_not_contains {s pat repl : String}
    (h : strContains s pat = false) : strReplace s pat repl = s := by
  unfold strReplace
  rw [replaceCore_of_not_contains h]

theorem strContains_mono {s p q : String} (hpq : isPre p.data q.data = true)
    (h : strContains s q = true) : strContains s p = true :=
  containsSub_mono hpq h

/-! ## Python values and dictionaries

JSON-style values (sufficient for the payloads the code manipulates) and
Python dictionaries as insertion-ordered association lists. -/

/-- A Python / JSON value as manipulated by the code under verification. -/
inductive JVal where
  | str : String → JVal
  | num : Int → JVal
  | bool : Bool → JVal
  | null : JVal
  | arr : List JVal → JVal
  | obj : List (String × JVal) → JVal

/-- A Python dictionary with string keys. -/
abbrev Dict := List (String × JVal)

/-- Left-biased choice on options (first one wins when present). -/
def optOr {α : Type u} : Option α → Option α → Option α
  | some v, _ => some v
  | none, y => y

/-- Dictionary lookup (`d[k]` / `d.get(k)`): value of the first entry whose
key matches. -/
def dictLookup {κ : Type u} {α : Type v} [BEq κ] (d : List (κ × α)) (k : κ) :
    Option α :=
  match d with
  | [] => none
  | p :: rest => if p.1 == k then some p.2 else dictLookup rest k

/-- Python dictionary assignment `d[k] = v`: update in place when the key is
present (keeping its position), append otherwise. -/
def dictInsert {κ : Type u} {α : Type v} [BEq κ] (d : List (κ × α)) (k : κ)
    (v : α) : List (κ × α) :=
  if (dictLookup d k).isSome then
    d.map (fun p => if p.1 == k then (k, v) else p)
  else
    d ++ [(k, v)]

/-- Python dictionary union `a | b`: keys of `a` in order (values taken from
`b` where it also has the key), then the keys of `b` not in `a`, in order. -/
def dictUnion {κ : Type u} {α : Type v} [BEq κ] (a b : List (κ × α)) :
    List (κ × α) :=
  a.map (fun p =>
    match dictLookup b p.1 with
    | some v => (p.1, v)
    | none => p) ++
  b.filter (fun q => (dictLookup a q.1).isNone)

theorem dictLookup_append {κ : Type u} {α : Type v} [BEq κ]
    (x y : List (κ × α)) (k : κ) :
    dictLookup (x ++ y) k = optOr (dictLookup x k) (dictLookup y k) := by
  induction x with
  | nil => simp [dictLookup, optOr]
  | cons p rest ih =>
    by_cases h : p.1 == k
    · simp [dictLookup, h, optOr]
    · simp [dictLookup, h, ih]

theorem optOr_none_right {α : Type u} (x : Option α) : optOr x none = x := by
  cases x <;> rfl

theorem dictLookup_map_override {κ : Type u} {α : Type v} [BEq κ] [LawfulBEq κ]
    (a b : List (κ × α)) (k : κ) :
    dictLookup (a.map (fun p =>
        match dictLookup b p.1 with
        | some v => (p.1, v)
        | none => p)) k =
      match dictLookup a k with
      | some v => some (match dictLookup b k with | some w => w | none => v)
      | none => none := by
  induction a with
  | nil => simp [dictLookup]
  | cons p rest ih =>
    have hfst : (match dictLookup b p.1 with
        | some v => (p.1, v)
        | none => p).1 = p.1 := by
      cases dictLookup b p.1 <;> rfl
    by_cases h : p.1 == k
    · have hk : p.1 = k := eq_of_beq h
      subst hk
      simp only [List.map, dictLookup, hfst, if_pos h]
      cases hb : dictLookup b p.1 <;> simp [hb]
    · simp only [List.map, dictLookup, hfst, if_neg h]
      exact ih

theorem dictLookup_filter_key {κ : Type u} {α : Type v} [BEq κ] [LawfulBEq κ]
    (l : List (κ × α)) (g : κ → Bool) (k : κ) :
    dictLookup (l.filter (fun q => g q.1)) k =
      if g k then dictLookup l k else none := by
  induction l with
  | nil => simp [dictLookup]
  | cons p rest ih =>
    rw [List.filter_cons]
    by_cases h : p.1 == k
    · have hk : p.1 = k := eq_of_beq h
      subst hk
      by_cases hg : g p.1
      · rw [if_pos (by simpa using hg)]
        simp [dictLookup, h, hg]
      · rw [if_neg (by simpa using hg)]
        rw [ih, if_neg (by simpa using hg), if_neg (by simpa using hg)]
    · by_cases hg : g p.1
      · rw [if_pos (by simpa using hg)]
        simp only [dictLookup, if_neg h]
        exact ih
      · rw [if_neg (by simpa using hg), ih]
        by_cases hgk : g k
        · rw [if_pos hgk, if_pos hgk]
          simp [dictLookup, h]
        · rw [if_neg hgk, if_neg hgk]

theorem dictLookup_union {κ : Type u} {α : Type v} [BEq κ] [LawfulBEq κ]
    (a b : List (κ × α)) (k : κ) :
    dictLookup (dictUnion a b) k = optOr (dictLookup b k) (dictLookup a k) := by
  unfold dictUnion
  rw [dictLookup_append, dictLookup_map_override]
  rw [dictLookup_filter_key (l := b) (g := fun x => (dictLookup a x).isNone)]
  cases ha : dictLookup a k <;> cases hb : dictLookup b k <;>
    simp [optOr, ha, hb]

theorem dictLookup_map_set_ne {κ : Type u} {α : Type v} [BEq κ] [LawfulBEq κ]
    (d : List (κ × α)) (k : κ) (v : α) (k2 : κ) (hne : ¬(k == k2) = true) :
    dictLookup (d.map (fun p => if p.1 == k then (k, v) else p)) k2 =
      dictLookup d k2 := by
  induction d with
  | nil => rfl
  | cons p rest ih =>
    by_cases hp : p.1 == k
    · have hk : p.1 = k := eq_of_beq hp
      simp only [List.map, dictLookup, if_pos hp]
      rw [if_neg hne, if_neg (by rw [hk]; exact hne)]
      exact ih
    · simp only [List.map, dictLookup, if_neg hp]
      by_cases hp2 : p.1 == k2
      · rw [if_pos hp2, if_pos hp2]
      · rw [if_neg hp2, if_neg hp2]
        exact ih

theorem dictLookup_map_set_eq {κ : Type u} {α : Type v} [BEq κ] [LawfulBEq κ]
    (d : List (κ × α)) (k : κ) (v : α)
    (hmem : (dictLookup d k).isSome = true) :
    dictLookup (d.map (fun p => if p.1 == k then (k, v) else p)) k = some v := by
  induction d with
  | nil => simp [dictLookup] at hmem
  | cons p rest ih =>
    by_cases hp : p.1 == k
    · simp only [List.map, dictLookup, if_pos hp]
      rw [if_pos (by simp)]
    · simp only [List.map, dictLookup, if_neg hp]
      exact ih (by simpa [dictLookup, if_neg hp] using hmem)

theorem dictLookup_insert {κ : Type u} {α : Type v} [BEq κ] [LawfulBEq κ]
    (d : List (κ × α)) (k : κ) (v : α) (k2 : κ) :
    dictLookup (dictInsert d k v) k2 =
      if k == k2 then some v else dictLookup d k2 := by
  unfold dictInsert
  by_cases hmem : (dictLookup d k).isSome
  · rw [if_pos hmem]
    by_cases h2 : k == k2
    · have : k = k2 := eq_of_beq h2
      subst this
      rw [if_pos h2]
      exact dictLookup_map_set_eq d k v hmem
    · rw [if_neg h2]
      exact dictLookup_map_set_ne d k v k2 h2
  · rw [if_neg hmem, dictLookup_append]
    by_cases h2 : k == k2
    · have : k = k2 := eq_of_beq h2
      subst this
      have hd : dictLookup d k = none := by
        cases h : dictLookup d k
        · rfl
        · exact absurd (by simp [h]) hmem
      simp [hd, dictLookup, optOr, h2]
    · simp only [dictLookup, if_neg h2]
      exact optOr_none_right _

/-! ## Errors and the reachability resolver

Raised Python exceptions become values of `PyErr`.  Network and filesystem
access become oracle functions: `head href` is the status code of
`requests.head(href)`, `isFile p` is `os.path.isfile(p)`. -/

/-- A raised Python exception, with its message. -/
inductive PyErr where
  | valueError : String → PyErr
  | notImplementedError : String → PyErr
  | indexError : String → PyErr
  | typeError : String → PyErr
  | attributeError : String → PyErr
  | keyError : String → PyErr
deriving DecidableEq

/-- The `visibility` attribute of a cloud product. -/
inductive Visibility where
  | all
  | localOnly
  | unreachable
deriving DecidableEq

/-- The asset dictionary (`asset_stac`), restricted to the keys the code
reads.  A `none` field models an absent key. -/
structure Asset where
  href : Option String
  mapper_kwargs : Option Dict
  open_zarr_kwargs : Option Dict
  open_xarray_kwargs : Option Dict

/-- The canonical remote host prefix used for remote/local path translation. -/
def cedaHost : String := "https://dap.ceda.ac.uk"

/-- `DataPointCloudProduct._set_visibility`: classify an href.  The field
starts as `all`; a remote href (containing `https://`) is probed with a HEAD
request, any non-200 status sets `local-only` and control falls through to
the local check; a 200 status returns early.  The local check downgrades to
`unreachable` when the localized path is not a file. -/
def _set_visibility (head : String → Nat) (isFile : String → Bool)
    (href : String) : Visibility :=
  if strContains href "https://" then
    if head href ≠ 200 then
      -- visibility provisionally local-only; the local check may downgrade it
      if isFile (strReplace href cedaHost "") then .localOnly else .unreachable
    else
      .all
  else
    if isFile (strReplace href cedaHost "") then .all else .unreachable

/-- One cloud product (`DataPointCloudProduct`), with the attributes stored
by `__init__`. -/
structure DataPointCloudProduct where
  _id : Option String
  _order : Option Int
  _cloud_format : Option String
  _asset_stac : Asset
  _meta : Dict
  _stac_attrs : Option Dict
  _properties : Option Dict
  visibility : Visibility

/-- Modelled from the spec: the product's identity accessor (`id`, provided
by the `PropertiesMixin`, whose source is not part of this snippet) — §3
names `id` as the CloudProduct identity taken at construction. -/
def DataPointCloudProduct.id (p : DataPointCloudProduct) : Option String :=
  p._id

/-- Read-only `cloud_format` property. -/
def DataPointCloudProduct.cloud_format (p : DataPointCloudProduct) :
    Option String :=
  p._cloud_format

/-- Python truthiness test for the optional `cloud_format` string
(`not self._cloud_format`). -/
def strOptFalsy : Option String → Bool
  | none => true
  | some s => s.isEmpty

/-- The JSON value stored for an optional string (Python `None` or `str`). -/
def jopt : Option String → JVal
  | some s => .str s
  | none => .null

/-- The `DataPointCloudProduct` constructor.  Returns the constructed
product (or the raised exception) together with the list of hrefs probed
with a HEAD request during construction, in order. -/
def DataPointCloudProduct.init (head : String → Nat) (isFile : String → Bool)
    (asset_stac : Asset) (id : Option String) (cf : Option String)
    (order : Option Int) (mode : String) (meta : Option Dict)
    (stac_attrs : Option Dict) (properties : Option Dict) :
    Except PyErr DataPointCloudProduct × List String :=
  if mode ≠ "xarray" then
    (.error (.notImplementedError
      "Only \"xarray\" mode currently implemented - cf-python is a future option"),
     [])
  else
    match meta with
    | none =>
      -- `meta | {...}` with `meta = None` raises before `_set_visibility` runs
      (.error (.typeError "unsupported operand type(s) for |: NoneType and dict"),
       [])
    | some m =>
      let merged := dictUnion m [("asset_id", jopt id), ("cloud_format", jopt cf)]
      match asset_stac.href with
      | none =>
        -- `self.href` inside `_set_visibility` raises KeyError
        (.error (.keyError "href"), [])
      | some h =>
        (.ok
          { _id := id
            _order := order
            _cloud_format := cf
            _asset_stac := asset_stac
            _meta := merged
            _stac_attrs := stac_attrs
            _properties := properties
            visibility := _set_visibility head isFile h },
         if strContains h "https://" then [h] else [])

/-! ## Kerchunk localisation (`_fetch_kerchunk_make_local`)

The GET oracle maps the attempt number to the `(status_code, body)` of that
attempt; `readFile` returns the text of a local file and `parseJson` models
`json.loads` (returning `none` on a decode error, which Python raises as a
`JSONDecodeError`, a `ValueError` subclass). -/

/-- A parsed kerchunk reference document: its `"refs"` mapping.  (The code
only ever reads and rewrites `refs["refs"]`.) -/
structure RefDoc where
  refs : List (String × JVal)

/-- Python `needle in v` for the first element of a reference triple:
substring test on strings, element membership on lists, key membership for
dictionaries; other operand types raise `TypeError`. -/
def pyInVal (needle : String) : JVal → Except PyErr Bool
  | .str s => .ok (strContains s needle)
  | .arr xs => .ok (xs.any fun x =>
      match x with
      | .str t => t == needle
      | _ => false)
  | .obj fields => .ok (fields.any fun f => f.1 == needle)
  | _ => .error (.typeError "argument is not iterable")

/-- The body of the rewrite loop for one value of the `"refs"` mapping:
3-element lists whose first element contains `https://` get that element
rewritten by `str.replace`; everything else is left as is. -/
def rewriteVal (v : JVal) : Except PyErr JVal :=
  match v with
  | .arr [x, y, z] =>
    match pyInVal "https://" x with
    | .error e => .error e
    | .ok cond =>
      if cond then
        match x with
        | .str s =>
          .ok (.arr [.str (strReplace s "https://dap.ceda.ac.uk/" "/"), y, z])
        | _ => .error (.attributeError "object has no attribute replace")
      else
        .ok v
  | v => .ok v

/-- The rewrite loop over all entries of the `"refs"` mapping, in order. -/
def rewriteEntries : List (String × JVal) → Except PyErr (List (String × JVal))
  | [] => .ok []
  | (k, v) :: rest =>
    match rewriteVal v with
    | .error e => .error e
    | .ok w =>
      match rewriteEntries rest with
      | .error e => .error e
      | .ok ws => .ok ((k, w) :: ws)

/-- Rewrite a whole reference document. -/
def rewriteDoc (d : RefDoc) : Except PyErr RefDoc :=
  match rewriteEntries d.refs with
  | .error e => .error e
  | .ok ws => .ok ⟨ws⟩

/-- One fuel-indexed unrolling of the download retry loop; the fuel is the
remaining distance to the bound of 3 attempts, so the loop guard
`attempts < 3 and not success` matches the source exactly. -/
def downloadLoopAux (get : Nat → Nat × String) :
    Nat → Nat → Bool → (Nat × String) → Nat × Bool × (Nat × String)
  | 0, attempts, success, resp => (attempts, success, resp)
  | fuel + 1, attempts, success, resp =>
    if attempts < 3 ∧ success = false then
      let r := get attempts
      downloadLoopAux get fuel (attempts + 1) (r.1 == 200) r
    else
      (attempts, success, resp)

/-- The download retry loop (`while attempts < 3 and not success`); returns
the final `(attempts, success, resp)` state. -/
def downloadLoop (get : Nat → Nat × String) (attempts : Nat) (success : Bool)
    (resp : Nat × String) : Nat × Bool × (Nat × String) :=
  downloadLoopAux get (3 - attempts) attempts success resp

/-- `_fetch_kerchunk_make_local`: fetch a kerchunk file (locally when the
localized path exists, otherwise over the network with up to 3 GET
attempts), parse it as JSON and rewrite its refs for local access. -/
def _fetch_kerchunk_make_local (isFile : String → Bool)
    (get : Nat → Nat × String) (readFile : String → String)
    (parseJson : String → Option RefDoc) (href : String) :
    Except PyErr RefDoc :=
  let href_local := strReplace href cedaHost ""
  let docE : Except PyErr RefDoc :=
    if !(isFile href_local) then
      match downloadLoop get 0 false (0, "") with
      | (attempts, success, resp) =>
        if attempts ≥ 3 ∧ success = false then
          .error (.valueError ("File " ++ href ++ ": Download unsuccessful - " ++
            "could not download the file successfully (tried 3 times)"))
        else
          match parseJson resp.2 with
          | some refs => .ok refs
          | none => .error (.valueError "Expecting value (JSONDecodeError)")
    else
      match parseJson (readFile href_local) with
      | some refs => .ok refs
      | none => .error (.valueError "Expecting value (JSONDecodeError)")
  match docE with
  | .error e => .error e
  | .ok refs => rewriteDoc refs

/-! ## Opening a product -/

/-- The first argument handed to the reference filesystem: either the href
itself, or (when `local_only`) the localized in-memory reference document. -/
inductive Fo where
  | href : String → Fo
  | doc : RefDoc → Fo

/-- The terminal call into the external dataset-opening library, with the
arguments the code passes to it.  The external call itself is modelled as
succeeding. -/
inductive OpenResult where
  | zarr : Fo → Dict → Dict → OpenResult
  | cfa : String → Dict → Dict → OpenResult

/-- `_zarr_kwargs_default`: default zarr options overridden by the supplied
ones. -/
def _zarr_kwargs_default (add_kwargs : Dict) : Dict :=
  dictUnion [("consolidated", JVal.bool false)] add_kwargs

/-- `DataPointCloudProduct._open_kerchunk`. -/
def DataPointCloudProduct._open_kerchunk (isFile : String → Bool)
    (get : Nat → Nat × String) (readFile : String → String)
    (parseJson : String → Option RefDoc) (p : DataPointCloudProduct)
    (local_only : Bool) (kwargs : Dict) : Except PyErr OpenResult :=
  match p._asset_stac.href with
  | none => .error (.valueError "Cloud assets with no \"href\" are not supported")
  | some href =>
    let mapper_kwargs := p._asset_stac.mapper_kwargs.getD []
    let open_zarr_kwargs := p._asset_stac.open_zarr_kwargs.getD []
    let foE : Except PyErr Fo :=
      if local_only then
        match _fetch_kerchunk_make_local isFile get readFile parseJson href with
        | .error e => .error e
        | .ok refs => .ok (.doc refs)
      else
        .ok (.href href)
    match foE with
    | .error e => .error e
    | .ok fo =>
      .ok (.zarr fo mapper_kwargs
        (dictUnion (_zarr_kwargs_default open_zarr_kwargs) kwargs))

/-- `DataPointCloudProduct._open_cfa`.  Python binds a caller-supplied
`cfa_options` keyword to the named parameter; the remaining keywords flow
into `**kwargs`. -/
def DataPointCloudProduct._open_cfa (p : DataPointCloudProduct)
    (kwargs : Dict) : Except PyErr OpenResult :=
  let cfa_options : Dict :=
    match dictLookup kwargs "cfa_options" with
    | some (.obj d) => d
    | _ => []
  let rest := kwargs.filter fun q => q.1 != "cfa_options"
  match p._asset_stac.href with
  | none => .error (.valueError "Cloud assets with no \"href\" are not supported")
  | some href =>
    .ok (.cfa href cfa_options
      (dictUnion (p._asset_stac.open_xarray_kwargs.getD []) rest))

/-- `DataPointCloudProduct.open_dataset`: the format/visibility guards, the
dispatch on `cloud_format`, and the re-wrap of `FileNotFoundError` (which
the model cannot produce, the external opens being modelled as pure
successes; `ValueError` is re-raised unchanged). -/
def DataPointCloudProduct.open_dataset (isFile : String → Bool)
    (get : Nat → Nat × String) (readFile : String → String)
    (parseJson : String → Option RefDoc) (p : DataPointCloudProduct)
    (local_only : Bool) (kwargs : Dict) : Except PyErr OpenResult :=
  if strOptFalsy p._cloud_format then
    .error (.valueError "No cloud format given for this dataset")
  else if p.visibility = .localOnly ∧ local_only = false then
    .error (.valueError
      "Href not reachable via https, please use `local_only=True` to open this dataset.")
  else if p._cloud_format == some "kerchunk" then
    p._open_kerchunk isFile get readFile parseJson local_only kwargs
  else if p._cloud_format == some "CFA" then
    p._open_cfa kwargs
  else
    .error (.valueError
      "Cloud format not recognised - must be one of (\"kerchunk\", \"CFA\")")

/-- The arguments of one `open_dataset` call. -/
structure OpenCall where
  local_only : Bool
  kwargs : Dict

/-- `open_dataset` as a state transformer on the product.  The method body
(together with `_open_kerchunk` and `_open_cfa`) assigns to no attribute of
`self`, so the post-state is the receiver itself. -/
def DataPointCloudProduct.open_dataset_step (isFile : String → Bool)
    (get : Nat → Nat × String) (readFile : String → String)
    (parseJson : String → Option RefDoc) (p : DataPointCloudProduct)
    (c : OpenCall) : Except PyErr OpenResult × DataPointCloudProduct :=
  (p.open_dataset isFile get readFile parseJson c.local_only c.kwargs, p)

/-- Run a sequence of `open_dataset` calls, threading the product state. -/
def runOpens (isFile : String → Bool) (get : Nat → Nat × String)
    (readFile : String → String) (parseJson : String → Option RefDoc)
    (p : DataPointCloudProduct) (calls : List OpenCall) :
    DataPointCloudProduct :=
  calls.foldl
    (fun st c => (st.open_dataset_step isFile get readFile parseJson c).2) p

/-! ## The cluster (`DataPointCluster`) -/

/-- A cluster of products: `_products` is the insertion-ordered mapping from
product id to product. -/
structure DataPointCluster where
  _id : String
  _local_only : Bool
  show_unreachable : Bool
  _products : List (Option String × DataPointCloudProduct)
  _meta : Dict

/-- The `products` property: the products of the mapping, in order, hiding
the unreachable ones unless `show_unreachable` is set. -/
def DataPointCluster.products (c : DataPointCluster) :
    List DataPointCloudProduct :=
  (c._products.map (fun p => p.2)).filter
    (fun v => v.visibility != .unreachable || c.show_unreachable)

/-- One element of the list handed to the cluster constructor: a product,
a nested cluster, or Python `None`. -/
inductive ClusterEntry where
  | prod : DataPointCloudProduct → ClusterEntry
  | cluster : DataPointCluster → ClusterEntry
  | pynone : ClusterEntry

/-- One iteration of the constructor's merging loop: a nested cluster
contributes the items of its `products` view, a product is stored under its
id, `None` entries are skipped. -/
def _mergeEntry (acc : List (Option String × DataPointCloudProduct)) :
    ClusterEntry → List (Option String × DataPointCloudProduct)
  | .cluster p => p.products.foldl (fun a2 sp => dictInsert a2 sp.id sp) acc
  | .prod p => dictInsert acc p.id p
  | .pynone => acc

/-- Python `str()` of an optional string (`None` prints as `"None"`). -/
def pyStr : Option String → String
  | some s => s
  | none => "None"

/-- The `DataPointCluster` constructor.  `hash_id` is the (external) id
hashing helper. -/
def DataPointCluster.init (hash_id : Option String → String)
    (products : List ClusterEntry) (parent_id : Option String)
    (meta : Option Dict) (local_only : Bool) (show_unreachable : Bool) :
    DataPointCluster :=
  let m := meta.getD []
  { _id := pyStr parent_id ++ "-" ++ hash_id parent_id
    _local_only := local_only
    show_unreachable := show_unreachable
    _products := products.foldl _mergeEntry []
    _meta := dictInsert m "products" (.num products.length) }

/-- An index passed to `cluster[...]` / `cluster.open_dataset(...)`: an
integer position or an id string. -/
inductive ClusterIndex where
  | int : Int → ClusterIndex
  | str : String → ClusterIndex

/-- Python list indexing `l[i]` (negative indices count from the end;
out-of-range raises `IndexError`, modelled as `none`). -/
def pyListGet {α : Type u} (l : List α) (i : Int) : Option α :=
  let j := if i < 0 then i + l.length else i
  if 0 ≤ j ∧ j < l.length then l.get? j.toNat else none

/-- Resolve a cluster index to the key looked up in `_products`: integers
are translated through the current key order (raising `IndexError` when out
of range), strings are used as keys directly. -/
def DataPointCluster.resolveKey (c : DataPointCluster) (index : ClusterIndex) :
    Except PyErr (Option String) :=
  match index with
  | .int i =>
    match pyListGet (c._products.map (fun p => p.1)) i with
    | some k => .ok k
    | none => .error (.indexError "list index out of range")
  | .str s => .ok (some s)

/-- `DataPointCluster.__getitem__`: resolve the index, then look the key up
in the mapping, raising `IndexError` when it is absent. -/
def DataPointCluster.getitem (c : DataPointCluster) (index : ClusterIndex) :
    Except PyErr DataPointCloudProduct :=
  match c.resolveKey index with
  | .error e => .error e
  | .ok k =>
    match dictLookup c._products k with
    | none =>
      .error (.indexError
        ("\"" ++ pyStr k ++ "\" not found in available products."))
    | some p => .ok p

/-- `DataPointCluster.open_dataset`: same resolution as indexing, but a
missing id logs a warning (second component) and returns `None` instead of
raising; a found product is opened with the effective `local_only`. -/
def DataPointCluster.open_dataset (isFile : String → Bool)
    (get : Nat → Nat × String) (readFile : String → String)
    (parseJson : String → Option RefDoc) (c : DataPointCluster)
    (id : ClusterIndex) (mode : String) (local_only : Bool) (kwargs : Dict) :
    (Except PyErr (Option OpenResult)) × List String :=
  if mode ≠ "xarray" then
    (.error (.notImplementedError
      "Only \"xarray\" mode currently implemented - cf-python is a future option"),
     [])
  else
    let lo := local_only || c._local_only
    match c.resolveKey id with
    | .error e => (.error e, [])
    | .ok k =>
      match dictLookup c._products k with
      | none =>
        (.ok none, ["\"" ++ pyStr k ++ "\" not found in available datasets."])
      | some product =>
        match product.open_dataset isFile get readFile parseJson lo kwargs with
        | .error e => (.error e, [])
        | .ok r => (.ok (some r), [])

/-- The stream of products the constructor's merging loop stores, in
processing order: nested clusters contribute their `products` view, `None`
entries nothing. -/
def flattenEntries : List ClusterEntry → List DataPointCloudProduct
  | [] => []
  | e :: es =>
    (match e with
     | .cluster c => c.products
     | .prod p => [p]
     | .pynone => []) ++ flattenEntries es

/-! ## Claim C1 -/

/-- Claim C1 (counterexample): a product constructed from a remote href
(containing `https://`) whose HEAD probe returns 404 (non-200) does NOT
always get visibility `local-only` — when the localized path is not a file
on disk, `_set_visibility` falls through and downgrades it to
`unreachable`. -/
theorem C1_counterexample :
    strContains "https://dap.ceda.ac.uk/x.json" "https://" = true ∧
    (404 : Nat) ≠ 200 ∧
    (DataPointCloudProduct.init (fun _ => 404) (fun _ => false)
        ⟨some "https://dap.ceda.ac.uk/x.json", none, none, none⟩
        (some "p1") (some "kerchunk") none "xarray" (some []) none none).1.map
      DataPointCloudProduct.visibility = .ok Visibility.unreachable ∧
    Visibility.unreachable ≠ Visibility.localOnly := by
  exact ⟨by decide, by decide, by rfl, by decide⟩

/-- Claim C1 (amended): for every product constructed from a remote href
(one containing `https://`) whose HEAD probe returns a non-200 status, the
visibility after construction is `local-only` when the localized path
(host prefix stripped) exists on disk, and `unreachable` otherwise. -/
theorem C1_remote_non200_visibility (head : String → Nat)
    (isFile : String → Bool) (asset : Asset) (id cf : Option String)
    (order : Option Int) (meta : Option Dict) (sa pr : Option Dict)
    (href : String) (p : DataPointCloudProduct) (probes : List String)
    (hhref : asset.href = some href)
    (hremote : strContains href "https://" = true)
    (hstatus : head href ≠ 200)
    (hinit : DataPointCloudProduct.init head isFile asset id cf order
      "xarray" meta sa pr = (.ok p, probes)) :
    p.visibility =
      if isFile (strReplace href cedaHost "") then Visibility.localOnly
      else Visibility.unreachable := by
  unfold DataPointCloudProduct.init at hinit
  rw [if_neg (by simp)] at hinit
  cases meta with
  | none => simp at hinit
  | some m =>
    simp only [hhref] at hinit
    rw [Prod.mk.injEq] at hinit
    obtain ⟨h1, h2⟩ := hinit
    injection h1 with h1
    subst h1
    show _set_visibility head isFile href = _
    unfold _set_visibility
    rw [if_pos hremote, if_pos hstatus]

/-- Witness for C1 (amended) at a concrete input where the local fallback
exists: the probe returns 404 and the product is constructed as
`local-only`. -/
theorem C1_remote_non200_visibility_witness :
    Visibility.localOnly =
      if (fun (_ : String) => true) (strReplace "https://dap.ceda.ac.uk/x.json" cedaHost "")
      then Visibility.localOnly else Visibility.unreachable := by
  exact C1_remote_non200_visibility (fun _ => 404) (fun _ => true)
    ⟨some "https://dap.ceda.ac.uk/x.json", none, none, none⟩
    (some "p1") (some "kerchunk") none (some []) none none
    "https://dap.ceda.ac.uk/x.json" _ _ rfl (by decide) (by decide) rfl

/-! ## Claim C10 -/

/-- Claim C10: constructing a `DataPointCloudProduct` with `meta` left at its
default `None` raises a `TypeError` from the metadata merge `meta | {...}`
before `_set_visibility` ever runs (the list of HEAD probes performed is
empty), and construction succeeds only when `meta` is a mapping. -/
theorem C10_meta_none_typeerror (head : String → Nat) (isFile : String → Bool)
    (asset : Asset) (id cf : Option String) (order : Option Int)
    (sa pr : Option Dict) :
    DataPointCloudProduct.init head isFile asset id cf order "xarray" none sa pr
      = (.error (.typeError "unsupported operand type(s) for |: NoneType and dict"), []) ∧
    (∀ (mode : String) (meta : Option Dict) (p : DataPointCloudProduct)
      (probes : List String),
      DataPointCloudProduct.init head isFile asset id cf order mode meta sa pr
        = (.ok p, probes) → meta.isSome = true) := by
  constructor
  · unfold DataPointCloudProduct.init
    rw [if_neg (by simp)]
  · intro mode meta p probes hinit
    unfold DataPointCloudProduct.init at hinit
    by_cases hmode : mode ≠ "xarray"
    · rw [if_pos hmode] at hinit
      simp at hinit
    · rw [if_neg hmode] at hinit
      cases meta with
      | none => simp at hinit
      | some m => rfl

/-- Witness for C10 at concrete inputs: the `meta = None` construction
fails with the `TypeError` (performing no probe), and a successful
construction with `meta = some []` indeed had a mapping. -/
theorem C10_meta_none_typeerror_witness :
    DataPointCloudProduct.init (fun _ => 200) (fun _ => true)
        ⟨some "/f.json", none, none, none⟩ (some "p1") (some "kerchunk")
        none "xarray" none none none
      = (.error (.typeError "unsupported operand type(s) for |: NoneType and dict"), []) ∧
    (some ([] : Dict)).isSome = true := by
  refine ⟨(C10_meta_none_typeerror (fun _ => 200) (fun _ => true)
    ⟨some "/f.json", none, none, none⟩ (some "p1") (some "kerchunk")
    none none none).1, ?_⟩
  exact (C10_meta_none_typeerror (fun _ => 200) (fun _ => true)
    ⟨some "/f.json", none, none, none⟩ (some "p1") (some "kerchunk")
    none none none).2 "xarray" (some []) _ _ rfl

/-! ## Claim C8 -/

/-- Claim C8 (counterexample): a product whose visibility is `local-only`
but whose `cloud_format` is unset fails (when opened with
`local_only=False`) with the no-cloud-format `ValueError`, not with the
access error instructing the caller to opt into local access. -/
theorem C8_counterexample :
    (DataPointCloudProduct.open_dataset (fun _ => true) (fun _ => (200, ""))
        (fun _ => "") (fun _ => none)
        { _id := some "p1", _order := none, _cloud_format := none,
          _asset_stac := ⟨some "https://dap.ceda.ac.uk/x.json", none, none, none⟩,
          _meta := [], _stac_attrs := none, _properties := none,
          visibility := .localOnly }
        false [])
      = .error (.valueError "No cloud format given for this dataset") ∧
    ("No cloud format given for this dataset" ≠
      "Href not reachable via https, please use `local_only=True` to open this dataset.") := by
  exact ⟨by rfl, by decide⟩

/-- Claim C8 (amended): for every product with a set (non-falsy) cloud
format and visibility `local-only`, opening with `local_only=False` fails
with the access error instructing the caller to pass `local_only=True`; the
result does not depend on any filesystem or network oracle, so no dataset
open is attempted. -/
theorem C8_local_only_guard (isFile : String → Bool)
    (get : Nat → Nat × String) (readFile : String → String)
    (parseJson : String → Option RefDoc) (p : DataPointCloudProduct)
    (kwargs : Dict)
    (hfmt : strOptFalsy p._cloud_format = false)
    (hvis : p.visibility = .localOnly) :
    p.open_dataset isFile get readFile parseJson false kwargs
      = .error (.valueError
          "Href not reachable via https, please use `local_only=True` to open this dataset.") ∧
    strContains
      "Href not reachable via https, please use `local_only=True` to open this dataset."
      "local_only=True" = true := by
  refine ⟨?_, by decide⟩
  unfold DataPointCloudProduct.open_dataset
  rw [if_neg (by simp [hfmt]), if_pos ⟨hvis, rfl⟩]

/-- Witness for C8 (amended) at a concrete kerchunk product. -/
theorem C8_local_only_guard_witness :
    DataPointCloudProduct.open_dataset (fun _ => true) (fun _ => (200, ""))
        (fun _ => "") (fun _ => none)
        { _id := some "p1", _order := none, _cloud_format := some "kerchunk",
          _asset_stac := ⟨some "https://dap.ceda.ac.uk/x.json", none, none, none⟩,
          _meta := [], _stac_attrs := none, _properties := none,
          visibility := .localOnly }
        false []
      = .error (.valueError
          "Href not reachable via https, please use `local_only=True` to open this dataset.") := by
  exact (C8_local_only_guard (fun _ => true) (fun _ => (200, ""))
    (fun _ => "") (fun _ => none) _ [] (by rfl) (by rfl)).1

/-! ## Claim C6 -/

/-- Claim C6 (counterexample): for an unset/empty cloud format the open
fails, but with the distinct error `No cloud format given for this dataset`,
whose message names neither `kerchunk` nor `CFA` — so the claim that every
format value outside the supported set (including an unset one) yields a
configuration error naming both supported formats is false. -/
theorem C6_counterexample :
    (DataPointCloudProduct.open_dataset (fun _ => true) (fun _ => (200, ""))
        (fun _ => "") (fun _ => none)
        { _id := some "p1", _order := none, _cloud_format := some "",
          _asset_stac := ⟨some "/x.json", none, none, none⟩,
          _meta := [], _stac_attrs := none, _properties := none,
          visibility := .all }
        false [])
      = .error (.valueError "No cloud format given for this dataset") ∧
    strContains "No cloud format given for this dataset" "kerchunk" = false ∧
    strContains "No cloud format given for this dataset" "CFA" = false := by
  exact ⟨by rfl, by decide, by decide⟩

/-- Claim C6 (amended): for every non-empty cloud-format value outside
`{kerchunk, CFA}` (on a product not stopped by the local-only access
guard), opening fails with the configuration error whose message names both
supported formats; an unset or empty format instead fails earlier with the
`No cloud format given for this dataset` error, which names neither. -/
theorem C6_unrecognised_format (isFile : String → Bool)
    (get : Nat → Nat × String) (readFile : String → String)
    (parseJson : String → Option RefDoc) (p : DataPointCloudProduct)
    (local_only : Bool) (kwargs : Dict)
    (hfmt : strOptFalsy p._cloud_format = false)
    (hk : p._cloud_format ≠ some "kerchunk")
    (hc : p._cloud_format ≠ some "CFA")
    (hacc : ¬(p.visibility = .localOnly ∧ local_only = false)) :
    p.open_dataset isFile get readFile parseJson local_only kwargs
      = .error (.valueError
          "Cloud format not recognised - must be one of (\"kerchunk\", \"CFA\")") ∧
    strContains
      "Cloud format not recognised - must be one of (\"kerchunk\", \"CFA\")"
      "kerchunk" = true ∧
    strContains
      "Cloud format not recognised - must be one of (\"kerchunk\", \"CFA\")"
      "CFA" = true := by
  refine ⟨?_, by decide, by decide⟩
  unfold DataPointCloudProduct.open_dataset
  rw [if_neg (by simp [hfmt]), if_neg hacc, if_neg (by simp [hk]),
    if_neg (by simp [hc])]

/-- Witness for C6 (amended) at a concrete product with format `zarr`. -/
theorem C6_unrecognised_format_witness :
    DataPointCloudProduct.open_dataset (fun _ => true) (fun _ => (200, ""))
        (fun _ => "") (fun _ => none)
        { _id := some "p1", _order := none, _cloud_format := some "zarr",
          _asset_stac := ⟨some "/x.json", none, none, none⟩,
          _meta := [], _stac_attrs := none, _properties := none,
          visibility := .all }
        false []
      = .error (.valueError
          "Cloud format not recognised - must be one of (\"kerchunk\", \"CFA\")") := by
  exact (C6_unrecognised_format (fun _ => true) (fun _ => (200, ""))
    (fun _ => "") (fun _ => none) _ false [] (by rfl) (by decide) (by decide)
    (by decide)).1

/-! ## Claim C7 -/

/-- Claim C7: whenever opening a kerchunk product reaches the zarr open
call, the effective open options resolve each key with caller-supplied
options first, then asset-supplied `open_zarr_kwargs`, then the default
`consolidated=False`. -/
theorem C7_zarr_kwargs_precedence (isFile : String → Bool)
    (get : Nat → Nat × String) (readFile : String → String)
    (parseJson : String → Option RefDoc) (p : DataPointCloudProduct)
    (local_only : Bool) (kwargs : Dict) (fo : Fo) (mk zk : Dict)
    (hopen : p._open_kerchunk isFile get readFile parseJson local_only kwargs
      = .ok (.zarr fo mk zk)) (k : String) :
    dictLookup zk k =
      optOr (dictLookup kwargs k)
        (optOr (dictLookup (p._asset_stac.open_zarr_kwargs.getD []) k)
          (if "consolidated" = k then some (JVal.bool false) else none)) := by
  unfold DataPointCloudProduct._open_kerchunk at hopen
  cases hh : p._asset_stac.href with
  | none => rw [hh] at hopen; simp at hopen
  | some href =>
    rw [hh] at hopen
    have hzk : zk = dictUnion
        (_zarr_kwargs_default (p._asset_stac.open_zarr_kwargs.getD [])) kwargs := by
      cases local_only with
      | false =>
        simp only [Bool.false_eq_true, if_false, Except.ok.injEq,
          OpenResult.zarr.injEq] at hopen
        exact hopen.2.2.symm
      | true =>
        simp only [if_true] at hopen
        cases hf : _fetch_kerchunk_make_local isFile get readFile parseJson href with
        | error e => rw [hf] at hopen; simp at hopen
        | ok refs =>
          rw [hf] at hopen
          simp only [Except.ok.injEq, OpenResult.zarr.injEq] at hopen
          exact hopen.2.2.symm
    subst hzk
    rw [dictLookup_union]
    unfold _zarr_kwargs_default
    rw [dictLookup_union]
    by_cases hck : "consolidated" = k
    · subst hck
      simp [dictLookup]
    · rw [if_neg hck]
      simp [dictLookup, hck]

/-- Witness for C7 at a concrete product: caller options beat asset options
on key `x`, and asset options beat the default on key `consolidated`. -/
theorem C7_zarr_kwargs_precedence_witness :
    dictLookup (dictUnion
        (_zarr_kwargs_default [("consolidated", JVal.bool true), ("x", JVal.num 1)])
        [("x", JVal.num 2), ("y", JVal.num 3)]) "x" = some (JVal.num 2) ∧
    dictLookup (dictUnion
        (_zarr_kwargs_default [("consolidated", JVal.bool true), ("x", JVal.num 1)])
        [("x", JVal.num 2), ("y", JVal.num 3)]) "consolidated"
      = some (JVal.bool true) := by
  constructor
  · exact (C7_zarr_kwargs_precedence (fun _ => true) (fun _ => (200, ""))
      (fun _ => "") (fun _ => none)
      { _id := some "p1", _order := none, _cloud_format := some "kerchunk",
        _asset_stac := ⟨some "/f.json", none,
          some [("consolidated", JVal.bool true), ("x", JVal.num 1)], none⟩,
        _meta := [], _stac_attrs := none, _properties := none,
        visibility := .all }
      false [("x", JVal.num 2), ("y", JVal.num 3)] _ _ _ rfl "x").trans (by rfl)
  · exact (C7_zarr_kwargs_precedence (fun _ => true) (fun _ => (200, ""))
      (fun _ => "") (fun _ => none)
      { _id := some "p1", _order := none, _cloud_format := some "kerchunk",
        _asset_stac := ⟨some "/f.json", none,
          some [("consolidated", JVal.bool true), ("x", JVal.num 1)], none⟩,
        _meta := [], _stac_attrs := none, _properties := none,
        visibility := .all }
      false [("x", JVal.num 2), ("y", JVal.num 3)] _ _ _ rfl "consolidated").trans
      (by rfl)

/-! ## Claim C9 -/

/-- Claim C9: the visibility field is computed once at construction and no
stored field of the product is modified by any sequence of `open_dataset`
calls — running any list of calls leaves the product state identical, and
its visibility is the value `_set_visibility` computed at construction. -/
theorem C9_visibility_frame (isFile : String → Bool)
    (get : Nat → Nat × String) (readFile : String → String)
    (parseJson : String → Option RefDoc) (head : String → Nat)
    (isFile0 : String → Bool) (asset : Asset) (id cf : Option String)
    (order : Option Int) (meta : Option Dict) (sa pr : Option Dict)
    (href : String) (p : DataPointCloudProduct) (probes : List String)
    (calls : List OpenCall)
    (hhref : asset.href = some href)
    (hinit : DataPointCloudProduct.init head isFile0 asset id cf order
      "xarray" meta sa pr = (.ok p, probes)) :
    runOpens isFile get readFile parseJson p calls = p ∧
    (runOpens isFile get readFile parseJson p calls).visibility
      = _set_visibility head isFile0 href := by
  have hrun : ∀ (q : DataPointCloudProduct),
      runOpens isFile get readFile parseJson q calls = q := by
    intro q
    induction calls generalizing q with
    | nil => rfl
    | cons c cs ih => exact ih q
  have hvis : p.visibility = _set_visibility head isFile0 href := by
    unfold DataPointCloudProduct.init at hinit
    rw [if_neg (by simp)] at hinit
    cases meta with
    | none => simp at hinit
    | some m =>
      simp only [hhref] at hinit
      rw [Prod.mk.injEq] at hinit
      obtain ⟨h1, _⟩ := hinit
      injection h1 with h1
      subst h1
      rfl
  exact ⟨hrun p, by rw [hrun p, hvis]⟩

/-- Witness for C9: a concrete product constructed over a reachable remote
href is unchanged by a sequence of two open calls, and keeps the visibility
computed at construction. -/
theorem C9_visibility_frame_witness :
    runOpens (fun _ => true) (fun _ => (200, "")) (fun _ => "") (fun _ => none)
      { _id := some "p1", _order := none, _cloud_format := some "kerchunk",
        _asset_stac := ⟨some "https://dap.ceda.ac.uk/x.json", none, none, none⟩,
        _meta := [("asset_id", JVal.str "p1"), ("cloud_format", JVal.str "kerchunk")],
        _stac_attrs := none, _properties := none, visibility := .all }
      [⟨false, []⟩, ⟨true, []⟩]
      = { _id := some "p1", _order := none, _cloud_format := some "kerchunk",
          _asset_stac := ⟨some "https://dap.ceda.ac.uk/x.json", none, none, none⟩,
          _meta := [("asset_id", JVal.str "p1"), ("cloud_format", JVal.str "kerchunk")],
          _stac_attrs := none, _properties := none, visibility := .all } := by
  exact (C9_visibility_frame (fun _ => true) (fun _ => (200, "")) (fun _ => "")
    (fun _ => none) (fun _ => 200) (fun _ => true)
    ⟨some "https://dap.ceda.ac.uk/x.json", none, none, none⟩
    (some "p1") (some "kerchunk") none (some []) none none
    "https://dap.ceda.ac.uk/x.json" _ _ [⟨false, []⟩, ⟨true, []⟩] rfl rfl).1

/-! ## Claim C3 -/

/-- Claim C3: for every id absent from a cluster's product mapping, direct
indexing raises an `IndexError`, while `open_dataset` with `mode='xarray'`
resolves the id the same way but logs a warning and returns `None` (an
empty result) instead of raising. -/
theorem C3_missing_id (c : DataPointCluster) (s : String)
    (habs : dictLookup c._products (some s) = none) :
    c.getitem (.str s)
      = .error (.indexError ("\"" ++ s ++ "\" not found in available products.")) ∧
    (∀ (isFile : String → Bool) (get : Nat → Nat × String)
      (readFile : String → String) (parseJson : String → Option RefDoc)
      (local_only : Bool) (kwargs : Dict),
      c.open_dataset isFile get readFile parseJson (.str s) "xarray"
          local_only kwargs
        = (.ok none, ["\"" ++ s ++ "\" not found in available datasets."])) := by
  constructor
  · unfold DataPointCluster.getitem DataPointCluster.resolveKey
    simp [habs, pyStr]
  · intro isFile get readFile parseJson local_only kwargs
    unfold DataPointCluster.open_dataset DataPointCluster.resolveKey
    rw [if_neg (by simp)]
    simp [habs, pyStr]

/-- Witness for C3 on a concretely constructed empty cluster and the id
`missing-id`. -/
theorem C3_missing_id_witness :
    (DataPointCluster.init (fun _ => "h0") [] none none false false).getitem
        (.str "missing-id")
      = .error (.indexError "\"missing-id\" not found in available products.") ∧
    (DataPointCluster.init (fun _ => "h0") [] none none false false).open_dataset
        (fun _ => true) (fun _ => (200, "")) (fun _ => "") (fun _ => none)
        (.str "missing-id") "xarray" false []
      = (.ok none, ["\"missing-id\" not found in available datasets."]) := by
  constructor
  · exact (C3_missing_id (DataPointCluster.init (fun _ => "h0") [] none none
      false false) "missing-id" rfl).1
  · exact (C3_missing_id (DataPointCluster.init (fun _ => "h0") [] none none
      false false) "missing-id" rfl).2 (fun _ => true) (fun _ => (200, ""))
      (fun _ => "") (fun _ => none) false []

/-! ## Claim C4 -/

theorem downloadLoopAux_fst_le (get : Nat → Nat × String) :
    ∀ (fuel attempts : Nat) (success : Bool) (resp : Nat × String),
      (downloadLoopAux get fuel attempts success resp).1 ≤ attempts + fuel := by
  intro fuel
  induction fuel with
  | zero => intro attempts success resp; simp [downloadLoopAux]
  | succ n ih =>
    intro attempts success resp
    simp only [downloadLoopAux]
    by_cases h : attempts < 3 ∧ success = false
    · rw [if_pos h]
      calc (downloadLoopAux get n (attempts + 1) ((get attempts).1 == 200)
            (get attempts)).1
          ≤ (attempts + 1) + n := ih (attempts + 1) _ _
        _ = attempts + (n + 1) := by omega
    · rw [if_neg h]
      omega

theorem downloadLoopAux_succ (get : Nat → Nat × String) (fuel attempts : Nat)
    (success : Bool) (resp : Nat × String) :
    downloadLoopAux get (fuel + 1) attempts success resp
      = if attempts < 3 ∧ success = false then
          downloadLoopAux get fuel (attempts + 1) ((get attempts).1 == 200)
            (get attempts)
        else
          (attempts, success, resp) := rfl

theorem downloadLoop_stop (get : Nat → Nat × String) (attempts : Nat)
    (success : Bool) (resp : Nat × String)
    (h : ¬(attempts < 3 ∧ success = false)) :
    downloadLoop get attempts success resp = (attempts, success, resp) := by
  unfold downloadLoop
  cases h3 : 3 - attempts with
  | zero => rfl
  | succ n => rw [downloadLoopAux_succ, if_neg h]

theorem downloadLoop_step (get : Nat → Nat × String) (attempts : Nat)
    (resp : Nat × String) (h : attempts < 3) :
    downloadLoop get attempts false resp
      = downloadLoop get (attempts + 1) ((get attempts).1 == 200)
          (get attempts) := by
  unfold downloadLoop
  have h3 : 3 - attempts = (3 - (attempts + 1)) + 1 := by omega
  rw [h3, downloadLoopAux_succ, if_pos ⟨h, rfl⟩]

/-- Claim C4: when the localized path does not exist, fetching a kerchunk
reference document performs at most 3 GET attempts; three non-200 responses
produce the download-failure `ValueError`, while a first 200 response at
attempt `i` (counted from 0, `i < 3`) stops the loop after `i + 1` attempts
and the function yields the parsed (and locally rewritten) document. -/
theorem C4_fetch_retries (isFile : String → Bool) (get : Nat → Nat × String)
    (readFile : String → String) (parseJson : String → Option RefDoc)
    (href : String) (i : Nat) (refs : RefDoc)
    (hnof : isFile (strReplace href cedaHost "") = false) :
    (downloadLoop get 0 false (0, "")).1 ≤ 3 ∧
    ((∀ j, j < 3 → (get j).1 ≠ 200) →
      _fetch_kerchunk_make_local isFile get readFile parseJson href
        = .error (.valueError ("File " ++ href ++ ": Download unsuccessful - " ++
            "could not download the file successfully (tried 3 times)"))) ∧
    (i < 3 → (get i).1 = 200 → (∀ j, j < i → (get j).1 ≠ 200) →
      parseJson (get i).2 = some refs →
      downloadLoop get 0 false (0, "") = (i + 1, true, get i) ∧
      _fetch_kerchunk_make_local isFile get readFile parseJson href
        = rewriteDoc refs) := by
  refine ⟨by simpa using downloadLoopAux_fst_le get 3 0 false (0, ""), ?_, ?_⟩
  · intro hall
    have h0 : ((get 0).1 == 200) = false := by
      rw [beq_eq_false_iff_ne]; exact hall 0 (by omega)
    have h1 : ((get 1).1 == 200) = false := by
      rw [beq_eq_false_iff_ne]; exact hall 1 (by omega)
    have h2 : ((get 2).1 == 200) = false := by
      rw [beq_eq_false_iff_ne]; exact hall 2 (by omega)
    have hloop : downloadLoop get 0 false (0, "") = (3, false, get 2) := by
      rw [downloadLoop_step get 0 (0, "") (by omega), h0,
        downloadLoop_step get 1 (get 0) (by omega), h1,
        downloadLoop_step get 2 (get 1) (by omega), h2,
        downloadLoop_stop get 3 false (get 2) (by omega)]
    unfold _fetch_kerchunk_make_local
    simp only [hnof, Bool.not_false, if_true, hloop]
    rw [if_pos ⟨by omega, trivial⟩]
  · intro hi h200 hbefore hparse
    have hloop : downloadLoop get 0 false (0, "") = (i + 1, true, get i) := by
      interval_cases i
      · rw [downloadLoop_step get 0 (0, "") (by omega),
          show ((get 0).1 == 200) = true by simp [h200],
          downloadLoop_stop get 1 true (get 0) (by simp)]
      · have h0 : ((get 0).1 == 200) = false := by
          rw [beq_eq_false_iff_ne]; exact hbefore 0 (by omega)
        rw [downloadLoop_step get 0 (0, "") (by omega), h0,
          downloadLoop_step get 1 (get 0) (by omega),
          show ((get 1).1 == 200) = true by simp [h200],
          downloadLoop_stop get 2 true (get 1) (by simp)]
      · have h0 : ((get 0).1 == 200) = false := by
          rw [beq_eq_false_iff_ne]; exact hbefore 0 (by omega)
        have h1 : ((get 1).1 == 200) = false := by
          rw [beq_eq_false_iff_ne]; exact hbefore 1 (by omega)
        rw [downloadLoop_step get 0 (0, "") (by omega), h0,
          downloadLoop_step get 1 (get 0) (by omega), h1,
          downloadLoop_step get 2 (get 1) (by omega),
          show ((get 2).1 == 200) = true by simp [h200],
          downloadLoop_stop get 3 true (get 2) (by simp)]
    refine ⟨hloop, ?_⟩
    unfold _fetch_kerchunk_make_local
    simp only [hnof, Bool.not_false, if_true, hloop]
    rw [if_neg (by simp), hparse]

/-- Witness for C4: the first attempt returns 500, the second 200 with body
`b`; the loop stops after 2 attempts and the fetch yields the rewritten
parsed document. -/
theorem C4_fetch_retries_witness :
    downloadLoop (fun n => if n = 0 then (500, "") else (200, "b")) 0 false (0, "")
      = (2, true, (200, "b")) ∧
    _fetch_kerchunk_make_local (fun _ => false)
        (fun n => if n = 0 then (500, "") else (200, "b")) (fun _ => "")
        (fun s => some ⟨[("k", JVal.str s)]⟩) "https://dap.ceda.ac.uk/f.json"
      = rewriteDoc ⟨[("k", JVal.str "b")]⟩ := by
  have h := C4_fetch_retries (fun _ => false)
    (fun n => if n = 0 then (500, "") else (200, "b")) (fun _ => "")
    (fun s => some ⟨[("k", JVal.str s)]⟩) "https://dap.ceda.ac.uk/f.json"
    1 ⟨[("k", JVal.str "b")]⟩ rfl
  have h2 := h.2.2 (by omega) (by rfl) (by decide) (by rfl)
  exact h2

/-! ## Claim C5 -/

/-- The rewriting rule as the spec words it: an entry whose value is a
3-element sequence whose first element (a string) contains the remote-host
URL prefix has that element rewritten by replacing
`https://dap.ceda.ac.uk/` with `/`; every other entry is unchanged.  This
definition follows the claim's words and is proved to coincide with the
code's rewrite loop on every successful run. -/
def specRewriteEntry (v : JVal) : JVal :=
  match v with
  | .arr [.str s, y, z] =>
    if strContains s "https://dap.ceda.ac.uk/" then
      .arr [.str (strReplace s "https://dap.ceda.ac.uk/" "/"), y, z]
    else
      .arr [.str s, y, z]
  | v => v

theorem rewriteVal_ok {v w : JVal} (h : rewriteVal v = .ok w) :
    w = specRewriteEntry v := by
  have hpre : isPre "https://".data "https://dap.ceda.ac.uk/".data = true := by
    decide
  cases v with
  | arr xs =>
    match xs with
    | [] => simp [rewriteVal] at h; simp [specRewriteEntry, h.symm]
    | [x] => simp [rewriteVal] at h; simp [specRewriteEntry, h.symm]
    | [x, y] => simp [rewriteVal] at h; simp [specRewriteEntry, h.symm]
    | x :: y :: z :: w4 :: rest =>
      simp [rewriteVal] at h
      simp [specRewriteEntry, h.symm]
    | [x, y, z] =>
      cases x with
      | str s =>
        by_cases hc : strContains s "https://" = true
        · simp only [rewriteVal, pyInVal, hc, if_true] at h
          injection h with h
          by_cases hl : strContains s "https://dap.ceda.ac.uk/" = true
          · simp [specRewriteEntry, hl, h.symm]
          · rw [Bool.not_eq_true] at hl
            simp [specRewriteEntry, hl, h.symm,
              strReplace_of_not_contains hl]
        · rw [Bool.not_eq_true] at hc
          simp only [rewriteVal, pyInVal, hc, Bool.false_eq_true, if_false] at h
          injection h with h
          have hl : strContains s "https://dap.ceda.ac.uk/" = false := by
            cases hl2 : strContains s "https://dap.ceda.ac.uk/" with
            | false => rfl
            | true => rw [strContains_mono hpre hl2] at hc; exact absurd hc (by simp)
          simp [specRewriteEntry, hl, h.symm]
      | num n => simp [rewriteVal, pyInVal] at h
      | bool b => simp [rewriteVal, pyInVal] at h
      | null => simp [rewriteVal, pyInVal] at h
      | arr xs2 =>
        by_cases hc : (xs2.any fun x => match x with
            | .str t => t == "https://"
            | _ => false) = true
        · simp [rewriteVal, pyInVal, hc] at h
        · rw [Bool.not_eq_true] at hc
          simp only [rewriteVal, pyInVal, hc, Bool.false_eq_true, if_false] at h
          injection h with h
          simp [specRewriteEntry, h.symm]
      | obj fs =>
        by_cases hc : (fs.any fun f => f.1 == "https://") = true
        · simp [rewriteVal, pyInVal, hc] at h
        · rw [Bool.not_eq_true] at hc
          simp only [rewriteVal, pyInVal, hc, Bool.false_eq_true, if_false] at h
          injection h with h
          simp [specRewriteEntry, h.symm]
  | str s => simp [rewriteVal] at h; simp [specRewriteEntry, h.symm]
  | num n => simp [rewriteVal] at h; simp [specRewriteEntry, h.symm]
  | bool b => simp [rewriteVal] at h; simp [specRewriteEntry, h.symm]
  | null => simp [rewriteVal] at h; simp [specRewriteEntry, h.symm]
  | obj fs => simp [rewriteVal] at h; simp [specRewriteEntry, h.symm]

/-- Claim C5: on every successful run, the code's rewrite loop over a
`refs` mapping transforms exactly the entries the spec describes — the
3-element sequences whose first element contains the remote-host URL
prefix get that element rewritten by replacing
`https://dap.ceda.ac.uk/` with `/`; every other entry (including all
non-3-element values) is unchanged. -/
theorem C5_rewrite_matches_spec (entries out : List (String × JVal))
    (h : rewriteEntries entries = .ok out) :
    out = entries.map (fun kv => (kv.1, specRewriteEntry kv.2)) := by
  induction entries generalizing out with
  | nil =>
    simp only [rewriteEntries] at h
    injection h with h
    simp [h.symm]
  | cons kv rest ih =>
    obtain ⟨k, v⟩ := kv
    simp only [rewriteEntries] at h
    cases hv : rewriteVal v with
    | error e => rw [hv] at h; simp at h
    | ok w =>
      rw [hv] at h
      cases hr : rewriteEntries rest with
      | error e => rw [hr] at h; simp at h
      | ok ws =>
        rw [hr] at h
        injection h with h
        rw [← h, List.map_cons]
        rw [rewriteVal_ok hv, ih ws hr]

/-- Witness for C5 at the spec's example document:
`{"a": ["https://dap.ceda.ac.uk/x/y", 10, 20], "b": "scalar"}` rewrites to
`{"a": ["/x/y", 10, 20], "b": "scalar"}`. -/
theorem C5_rewrite_matches_spec_witness :
    rewriteEntries
        [("a", JVal.arr [JVal.str "https://dap.ceda.ac.uk/x/y", JVal.num 10,
          JVal.num 20]), ("b", JVal.str "scalar")]
      = .ok [("a", JVal.arr [JVal.str "/x/y", JVal.num 10, JVal.num 20]),
          ("b", JVal.str "scalar")] := by
  have h : rewriteEntries
      [("a", JVal.arr [JVal.str "https://dap.ceda.ac.uk/x/y", JVal.num 10,
        JVal.num 20]), ("b", JVal.str "scalar")]
    = .ok [("a", JVal.arr [JVal.str "/x/y", JVal.num 10, JVal.num 20]),
        ("b", JVal.str "scalar")] := rfl
  rw [h, C5_rewrite_matches_spec _ _ h]

/-! ## Claim C2 -/

/-- The last element of a list satisfying a predicate (later elements win). -/
def lastWith {α : Type u} (f : α → Bool) : List α → Option α
  | [] => none
  | a :: l => optOr (lastWith f l) (if f a then some a else none)

theorem optOr_assoc {α : Type u} (x y z : Option α) :
    optOr (optOr x y) z = optOr x (optOr y z) := by
  cases x <;> cases y <;> rfl

theorem keys_map_set {κ : Type u} {α : Type v} [BEq κ] [LawfulBEq κ]
    (d : List (κ × α)) (k : κ) (v : α) :
    (d.map (fun p => if p.1 == k then (k, v) else p)).map (fun q => q.1)
      = d.map (fun q => q.1) := by
  induction d with
  | nil => rfl
  | cons p rest ih =>
    simp only [List.map_cons, ih]
    congr 1
    by_cases hp : p.1 == k
    · rw [if_pos hp]
      exact (eq_of_beq hp).symm
    · rw [if_neg hp]

theorem dictLookup_none_not_mem {κ : Type u} {α : Type v} [BEq κ] [LawfulBEq κ]
    (d : List (κ × α)) (k : κ) (h : dictLookup d k = none) :
    k ∉ d.map (fun q => q.1) := by
  induction d with
  | nil => simp
  | cons p rest ih =>
    simp only [dictLookup] at h
    by_cases hp : p.1 == k
    · rw [if_pos hp] at h
      exact absurd h (by simp)
    · rw [if_neg hp] at h
      simp only [List.map_cons, List.mem_cons]
      rintro (hk | hk)
      · exact hp (by simp [hk])
      · exact ih h hk

theorem nodup_keys_dictInsert {κ : Type u} {α : Type v} [BEq κ] [LawfulBEq κ]
    (d : List (κ × α)) (k : κ) (v : α)
    (h : (d.map (fun q => q.1)).Nodup) :
    ((dictInsert d k v).map (fun q => q.1)).Nodup := by
  unfold dictInsert
  by_cases hmem : (dictLookup d k).isSome
  · rw [if_pos hmem, keys_map_set]
    exact h
  · rw [if_neg hmem, List.map_append]
    have hnone : dictLookup d k = none := by
      cases hd : dictLookup d k
      · rfl
      · exact absurd (by simp [hd]) hmem
    rw [List.nodup_append]
    refine ⟨h, List.nodup_singleton k, ?_⟩
    intro a ha hb
    rw [show (List.map (fun q => q.1) [(k, v)]) = [k] from rfl,
      List.mem_singleton] at hb
    subst hb
    exact dictLookup_none_not_mem d a hnone ha

theorem dictLookup_idFold (ps : List DataPointCloudProduct)
    (acc : List (Option String × DataPointCloudProduct)) (k : Option String) :
    dictLookup (ps.foldl (fun a p => dictInsert a p.id p) acc) k
      = optOr (lastWith (fun p => p.id == k) ps) (dictLookup acc k) := by
  induction ps generalizing acc with
  | nil => rfl
  | cons p rest ih =>
    simp only [List.foldl_cons, lastWith]
    rw [ih, dictLookup_insert, optOr_assoc]
    congr 1
    by_cases hp : (p.id == k) = true
    · rw [if_pos hp, if_pos hp]
      rfl
    · rw [if_neg hp, if_neg hp]
      rfl

theorem nodup_keys_idFold (ps : List DataPointCloudProduct)
    (acc : List (Option String × DataPointCloudProduct))
    (h : (acc.map (fun q => q.1)).Nodup) :
    (((ps.foldl (fun a p => dictInsert a p.id p) acc)).map
      (fun q => q.1)).Nodup := by
  induction ps generalizing acc with
  | nil => exact h
  | cons p rest ih =>
    simp only [List.foldl_cons]
    exact ih _ (nodup_keys_dictInsert acc p.id p h)

theorem foldl_mergeEntry_eq (entries : List ClusterEntry)
    (acc : List (Option String × DataPointCloudProduct)) :
    entries.foldl _mergeEntry acc
      = (flattenEntries entries).foldl (fun a p => dictInsert a p.id p) acc := by
  induction entries generalizing acc with
  | nil => rfl
  | cons e es ih =>
    simp only [List.foldl_cons, flattenEntries, List.foldl_append]
    rw [ih]
    congr 1
    cases e <;> rfl

/-- The unreachable product used by the C2 counterexample. -/
def productB : DataPointCloudProduct :=
  { _id := some "B"
    _order := none
    _cloud_format := some "kerchunk"
    _asset_stac := ⟨some "hB", none, none, none⟩
    _meta := []
    _stac_attrs := none
    _properties := none
    visibility := .unreachable }

/-- A cluster containing only the unreachable product. -/
def innerClusterB : DataPointCluster :=
  DataPointCluster.init (fun _ => "h") [.prod productB] (some "x") none
    false false

/-- A cluster constructed from the nested cluster above. -/
def outerClusterB : DataPointCluster :=
  DataPointCluster.init (fun _ => "h") [.cluster innerClusterB] (some "y")
    none false false

/-- Claim C2 (counterexample): the constructor merges only the nested
cluster's `products` view.  A nested cluster containing an unreachable
product (with `show_unreachable` unset) holds that product in its mapping,
yet the outer cluster built from it does not — so not every product
contained in a nested cluster is merged into the outer mapping. -/
theorem C2_counterexample :
    dictLookup innerClusterB._products (some "B") = some productB ∧
    dictLookup outerClusterB._products (some "B") = none := by
  exact ⟨rfl, rfl⟩

/-- Claim C2 (amended): constructing a cluster merges, for every nested
cluster entry, exactly the products of its `products` view (all contained
products except the unreachable ones, or all of them when the nested
cluster was built with `show_unreachable`) into the outer mapping keyed by
product id; every id appears at most once, and on duplicate ids the
later-processed product wins (last-write-wins). -/
theorem C2_flattening (hash_id : Option String → String)
    (entries : List ClusterEntry) (parent_id : Option String)
    (meta : Option Dict) (local_only show_unreachable : Bool)
    (k : Option String) :
    dictLookup (DataPointCluster.init hash_id entries parent_id meta
        local_only show_unreachable)._products k
      = lastWith (fun p => p.id == k) (flattenEntries entries) ∧
    (((DataPointCluster.init hash_id entries parent_id meta
        local_only show_unreachable)._products).map (fun q => q.1)).Nodup := by
  constructor
  · show dictLookup (entries.foldl _mergeEntry []) k = _
    rw [foldl_mergeEntry_eq, dictLookup_idFold]
    exact optOr_none_right _
  · show ((entries.foldl _mergeEntry []).map (fun q => q.1)).Nodup
    rw [foldl_mergeEntry_eq]
    exact nodup_keys_idFold _ [] (by simp)
